import Mathlib

/-!
Shallow embedding of `src/tester.py` (Playwright-based controlled tester).

The module under verification is a single Python file.  We embed:

* `BASE_PAYLOAD`, `SUCCESS_MARKER` — the module-level constants;
* `build_payload_with_trace` — the payload builder.  Python dicts are
  modelled as ordered association lists with Python's dict-assignment
  semantics (`dictSet`): assigning to an existing key overwrites it in
  place, assigning to a fresh key appends it at the end;
* `worker_send` — the attempt executor.  The browser (Playwright) is an
  external collaborator; it is modelled by a `BrowserEnv` value that fixes
  the outcome of every external call the worker makes, following the
  capability interface of §6 of the design document: the import may fail,
  `page.goto` may time out or raise, the nonce harvest yields an optional
  string, and `page.evaluate` either raises or yields the value returned
  by the in-page script (a dict with an `error` key, a dict with optional
  `status`/`text` keys, or a non-dict value).  Session close is modelled
  as infallible, as in the §6 capability interface, where only
  `navigate`, `waitForSelector` and `evaluateInPage` have failure modes;
* `run_sequential` / `run_parallel` — the dispatch controllers.
  `Pool.imap_unordered` delivers results in an arbitrary completion
  order, modelled by an explicit `completionOrder` list (a permutation of
  the task indices); Python's stable `list.sort(key=...)` is modelled by
  `List.insertionSort` on the index ordering;
* `summarize` — the final tally computed in `main` (total / ok / failed);
* a small explicit heap (`Heap`) used to state the frame property of
  `build_payload_with_trace`: the builder mutates only its own fresh copy
  (`BASE_PAYLOAD.copy()`), never the base template object itself.

`reps` is an `Int` because the CLI parses `--reps` as a Python `int`;
`range(1, reps + 1)` is empty for every `reps < 1`.
-/

/-- A Python dict over string keys/values, as an ordered association list
(Python dicts preserve insertion order). -/
abbrev Dict := List (String × String)

/-- Python `d[k] = v` on a dict: overwrite in place if `k` is already a
key (keeping its position), otherwise append `(k, v)` at the end. -/
def dictSet (d : Dict) (k v : String) : Dict :=
  if d.any (fun kv => kv.1 = k) then
    d.map (fun kv => if kv.1 = k then (k, v) else kv)
  else
    d ++ [(k, v)]

/-- `BASE_PAYLOAD` (tester.py lines 38–43). -/
def BASE_PAYLOAD : Dict :=
  [("field_option", "value_option"),
   ("screen", "submit"),
   ("formId", "123"),
   ("action", "submit")]

/-- `SUCCESS_MARKER` (tester.py line 46). -/
def SUCCESS_MARKER : String := "thank you"

/-- Python's `str.lower()` (the marker and snippets are ASCII, where
per-character lowercasing coincides with Python's). -/
def pyLower (s : String) : String := ⟨s.data.map Char.toLower⟩

/-- Python's substring test `needle in hay` on strings. -/
def strContains (hay needle : String) : Bool :=
  (List.range (hay.toList.length + 1)).any
    (fun i => needle.toList.isPrefixOf (hay.toList.drop i))

/-- Python truthiness of an optional string: `None` and `""` are falsy. -/
def truthy : Option String → Bool
  | none => false
  | some s => !(s == "")

/-- `build_payload_with_trace` (tester.py lines 60–73): clone
`BASE_PAYLOAD`, set `trace_id`, set `_nonce` only when `nonce` is truthy,
and return the items in order. -/
def build_payload_with_trace (trace : String) (nonce : Option String) : Dict :=
  let p := dictSet BASE_PAYLOAD "trace_id" trace
  let p := if truthy nonce then dictSet p "_nonce" (nonce.getD "") else p
  p

/-- The value returned by `page.evaluate(fetch_script)` when it does not
raise: the in-page script returns either a dict carrying an `error` key,
or a dict carrying `status` / `text`; `page.evaluate` may in general also
produce a non-dict value (modelled with its `repr` string). `status` is
`none` when the `status` key is absent, mirroring `fetch_result.get`. -/
inductive FetchResult where
  | errDict (e : String)
  | dict (status : Option Int) (text : Option String)
  | nonDict (pyRepr : String)
deriving Repr, DecidableEq

/-- Outcome of the navigation block (tester.py lines 118–126): the first
`goto` (wait_until="networkidle") either succeeds, raises
`PlaywrightTimeout` (then the second `goto` with wait_until="load" runs
and either succeeds or raises), or raises some non-timeout exception,
which only the top-level handler catches. -/
inductive NavOutcome where
  | ok
  | timeoutThenOk
  | timeoutThenFail (e : String)
  | raise (e : String)
deriving Repr, DecidableEq

/-- One attempt's view of the external browser collaborator. -/
structure BrowserEnv where
  /-- `some e` iff `from playwright.sync_api import ...` raises `e`. -/
  importError : Option String
  nav : NavOutcome
  /-- Harvested nonce: `none` covers a missing element, a `None`
  attribute, and an exception inside the best-effort harvest block
  (caught by its local `except Exception: pass`). -/
  nonce : Option String
  /-- `Except.error e` iff `page.evaluate` raises `e`. -/
  fetch : Except String FetchResult
deriving Repr

/-- The result dict built by `worker_send`; absent keys are `none`. -/
structure AttemptResult where
  index : Nat
  trace : Option String
  ok : Bool
  http_status : Option Int
  message : Option String
  response_snippet : Option String
deriving Repr, DecidableEq

/-- Python's `f"{v}"` for the value under the `status` key. -/
def pyShowStatus : Option Int → String
  | none => "None"
  | some n => toString n

/-- `worker_send` (tester.py lines 80–206).  `uuid` stands for the
`uuid.uuid4()` draw; the trace recorded is `f"cli-{uuid.uuid4()}"`.  All
external effects are read off `env`. -/
def worker_send (index : Nat) (uuid : String) (env : BrowserEnv) : AttemptResult :=
  match env.importError with
  | some e =>
      { index := index, trace := none, ok := false, http_status := none,
        message := some ("Playwright import error: " ++ e),
        response_snippet := none }
  | none =>
    let result : AttemptResult :=
      { index := index, trace := some ("cli-" ++ uuid), ok := false,
        http_status := none, message := none, response_snippet := none }
    match env.nav with
    | .timeoutThenFail e =>
        { result with message := some ("Failed to load page: " ++ e) }
    | .raise e =>
        { result with message := some ("Unhandled exception: " ++ e) }
    | _ =>
      match env.fetch with
      | .error e =>
          { result with message := some ("Unhandled exception: " ++ e) }
      | .ok (.errDict e) =>
          { result with message := some ("Fetch error: " ++ e) }
      | .ok (.nonDict r) =>
          { result with message := some ("Unexpected fetch result: " ++ r) }
      | .ok (.dict status text) =>
          let r1 := { result with http_status := status, response_snippet := text }
          if status = some 200 then
            if strContains (pyLower (text.getD "")) (pyLower SUCCESS_MARKER) then
              { r1 with ok := true, message := some "HTTP 200 and success marker found." }
            else
              { r1 with ok := true, message := some "HTTP 200, no success marker found." }
          else
            { r1 with message := some ("HTTP " ++ pyShowStatus status) }

/-- The task indices `range(1, reps + 1)` shared by both controllers;
empty whenever `reps < 1`. -/
def attemptIndices (reps : Int) : List Nat :=
  List.range' 1 reps.toNat

/-- `run_sequential` (tester.py lines 213–232): invoke the worker on each
index in order and collect the results (printing and sleeping have no
bearing on the returned list).  `uuid`/`envOf` give each attempt its own
uuid draw and browser behaviour. -/
def run_sequential (reps : Int) (uuid : Nat → String) (envOf : Nat → BrowserEnv) :
    List AttemptResult :=
  (attemptIndices reps).map (fun i => worker_send i (uuid i) (envOf i))

/-- The comparison `key=lambda x: x.get("index", 0)` used by
`out.sort` in `run_parallel`. -/
def byIndex (a b : AttemptResult) : Prop := a.index ≤ b.index

instance : DecidableRel byIndex := fun a b => Nat.decLe a.index b.index

instance : IsTotal AttemptResult byIndex := ⟨fun a b => Nat.le_total a.index b.index⟩

instance : IsTrans AttemptResult byIndex :=
  ⟨fun _ _ _ h h2 => Nat.le_trans h h2⟩

/-- `run_parallel` (tester.py lines 235–260): `pool.imap_unordered`
yields the worker's results in some completion order — modelled by
`completionOrder`, the sequence of indices in the order their results
arrive — and the collected list is then sorted stably by index
(`out.sort(key=lambda x: x.get("index", 0))`). -/
def run_parallel (reps : Int) (uuid : Nat → String) (envOf : Nat → BrowserEnv)
    (completionOrder : List Nat) : List AttemptResult :=
  let _args := attemptIndices reps
  let out := completionOrder.map (fun i => worker_send i (uuid i) (envOf i))
  out.insertionSort byIndex

/-- The final tally printed by `main` (tester.py lines 301–304):
`(total, succeeded, failed)`. -/
def summarize (results : List AttemptResult) : Nat × Nat × Nat :=
  let ok_count := (results.filter (fun r => r.ok)).length
  (results.length, ok_count, results.length - ok_count)

/-!
A minimal heap of Python dict objects, used to state that
`build_payload_with_trace` never mutates the `BASE_PAYLOAD` object: the
builder first takes `BASE_PAYLOAD.copy()` (a fresh allocation) and all
its assignments hit that copy.
-/

/-- A store of dict objects; an object reference is its index. -/
structure Heap where
  objs : List Dict
deriving Repr, DecidableEq

/-- Allocate a fresh dict object (e.g. the result of `.copy()`). -/
def Heap.alloc (h : Heap) (d : Dict) : Heap × Nat :=
  (⟨h.objs ++ [d]⟩, h.objs.length)

/-- Read the dict behind a reference. -/
def Heap.read (h : Heap) (r : Nat) : Dict :=
  (h.objs.getD r [])

/-- Python `obj[k] = v` on the object behind reference `r`. -/
def Heap.assign (h : Heap) (r : Nat) (k v : String) : Heap :=
  ⟨h.objs.set r (dictSet (h.read r) k v)⟩

/-- `build_payload_with_trace` with the Python object store explicit:
`baseRef` is the reference held by the module-level name `BASE_PAYLOAD`;
`p = BASE_PAYLOAD.copy()` allocates, and both assignments target `p`.
Returns the final heap together with `list(p.items())`. -/
def build_payload_with_trace_heap (h : Heap) (baseRef : Nat) (trace : String)
    (nonce : Option String) : Heap × Dict :=
  let (h1, p) := h.alloc (h.read baseRef)
  let h2 := h1.assign p "trace_id" trace
  let h3 := if truthy nonce then h2.assign p "_nonce" (nonce.getD "") else h2
  (h3, h3.read p)

/-!
Helper lemmas shared by the claim theorems.
-/

/-- Every branch of `worker_send` records the input attempt index. -/
theorem worker_send_index (i : Nat) (u : String) (env : BrowserEnv) :
    (worker_send i u env).index = i := by
  rcases env with ⟨imp, nav, nonce, fetch⟩
  cases imp <;> cases nav <;> rcases fetch with e | (e2 | ⟨st, tx⟩ | r) <;>
    simp only [worker_send] <;> split_ifs <;> rfl

/-- The sequential controller returns results whose indices are exactly
the dispatched task indices, in order. -/
theorem run_sequential_indices (reps : Int) (uuid : Nat → String) (envOf : Nat → BrowserEnv) :
    (run_sequential reps uuid envOf).map AttemptResult.index = attemptIndices reps := by
  unfold run_sequential
  rw [List.map_map]
  exact (List.map_congr_left (fun a _ => worker_send_index a _ _)).trans (List.map_id _)

/-- The parallel controller returns results whose indices are exactly the
dispatched task indices in ascending order, for any completion order that
is a permutation of the task set. -/
theorem run_parallel_indices (reps : Int) (uuid : Nat → String) (envOf : Nat → BrowserEnv)
    (order : List Nat) (h : order.Perm (attemptIndices reps)) :
    (run_parallel reps uuid envOf order).map AttemptResult.index = attemptIndices reps := by
  unfold run_parallel
  set out := order.map (fun i => worker_send i (uuid i) (envOf i)) with hout
  have hmap : out.map AttemptResult.index = order := by
    rw [hout, List.map_map]
    exact (List.map_congr_left (fun a _ => worker_send_index a _ _)).trans (List.map_id _)
  have hperm : (out.insertionSort byIndex).map AttemptResult.index |>.Perm (attemptIndices reps) := by
    refine ((List.perm_insertionSort byIndex out).map AttemptResult.index).trans ?_
    rw [hmap]; exact h
  have hsorted : ((out.insertionSort byIndex).map AttemptResult.index).Sorted (· ≤ ·) := by
    have hs := List.sorted_insertionSort byIndex out
    exact List.Pairwise.map AttemptResult.index (fun a b hab => hab) hs
  have hsr : (attemptIndices reps).Sorted (· ≤ ·) := List.pairwise_le_range' 1 reps.toNat
  exact List.eq_of_perm_of_sorted hperm hsorted hsr

/-- Heap: reading the reference just returned by `alloc` yields the
allocated dict. -/
theorem heap_read_alloc (h : Heap) (d : Dict) :
    ((h.alloc d).1).read (h.alloc d).2 = d := by
  simp [Heap.alloc, Heap.read, List.getD_eq_getElem?_getD, List.getElem?_concat_length]

/-- Heap: `alloc` does not disturb existing objects. -/
theorem heap_read_alloc_old (h : Heap) (d : Dict) (r : Nat) (hr : r < h.objs.length) :
    ((h.alloc d).1).read r = h.read r := by
  simp [Heap.alloc, Heap.read, List.getD_eq_getElem?_getD,
    List.getElem?_append_left hr]

/-- Heap: `assign` preserves the number of objects. -/
theorem heap_assign_length (h : Heap) (r : Nat) (k v : String) :
    (h.assign r k v).objs.length = h.objs.length := by
  simp [Heap.assign]

/-- Heap: reading back an assignment target sees the updated dict. -/
theorem heap_read_assign_self (h : Heap) (r : Nat) (k v : String) (hr : r < h.objs.length) :
    (h.assign r k v).read r = dictSet (h.read r) k v := by
  simp [Heap.assign, Heap.read, List.getD_eq_getElem?_getD, List.getElem?_set_self hr]

/-- Heap: assignment to one object leaves every other object unchanged. -/
theorem heap_read_assign_other (h : Heap) (r r2 : Nat) (k v : String) (hne : r ≠ r2) :
    (h.assign r k v).read r2 = h.read r2 := by
  simp [Heap.assign, Heap.read, List.getD_eq_getElem?_getD, List.getElem?_set_ne hne]

/-- The payload returned by the heap-level builder is a pure function of
the dict currently stored behind `baseRef`. -/
theorem bp_heap_payload (h : Heap) (baseRef : Nat) (trace : String) (nonce : Option String) :
    (build_payload_with_trace_heap h baseRef trace nonce).2 =
      (let p := dictSet (h.read baseRef) "trace_id" trace
       if truthy nonce then dictSet p "_nonce" (nonce.getD "") else p) := by
  unfold build_payload_with_trace_heap
  have hp : (h.alloc (h.read baseRef)).2 = h.objs.length := rfl
  have hlen : ((h.alloc (h.read baseRef)).1).objs.length = h.objs.length + 1 := by
    simp [Heap.alloc]
  cases ht : truthy nonce <;> simp only [ht, if_true, if_false, Bool.false_eq_true]
  · rw [heap_read_assign_self _ _ _ _ (by rw [hp, hlen]; omega), heap_read_alloc]
  · rw [heap_read_assign_self _ _ _ _ (by rw [heap_assign_length, hp, hlen]; omega),
      heap_read_assign_self _ _ _ _ (by rw [hp, hlen]; omega), heap_read_alloc]

/-- The heap-level builder never writes to the object behind `baseRef`
(the assignments all target the fresh copy). -/
theorem bp_heap_frame (h : Heap) (baseRef : Nat) (trace : String) (nonce : Option String)
    (hlt : baseRef < h.objs.length) :
    ((build_payload_with_trace_heap h baseRef trace nonce).1).read baseRef = h.read baseRef := by
  unfold build_payload_with_trace_heap
  have hp : (h.alloc (h.read baseRef)).2 = h.objs.length := rfl
  have hne : (h.alloc (h.read baseRef)).2 ≠ baseRef := by rw [hp]; omega
  cases ht : truthy nonce <;> simp only [ht, if_true, if_false, Bool.false_eq_true]
  · rw [heap_read_assign_other _ _ _ _ _ hne, heap_read_alloc_old _ _ _ hlt]
  · rw [heap_read_assign_other _ _ _ _ _ hne, heap_read_assign_other _ _ _ _ _ hne,
      heap_read_alloc_old _ _ _ hlt]

/-!
Claim theorems.
-/

/-- C1: for every `AttemptResult` produced by `worker_send`, the success
flag `ok` is `true` if and only if the recorded HTTP status equals 200;
on every other path (navigation failure, fetch error, non-200 status,
non-dict fetch result, import error, unhandled exception) the flag is
`false`. -/
theorem worker_send_ok_iff_http200 (index : Nat) (uuid : String) (env : BrowserEnv) :
    (worker_send index uuid env).ok = true ↔
    (worker_send index uuid env).http_status = some 200 := by
  rcases env with ⟨imp, nav, nonce, fetch⟩
  cases imp <;> cases nav <;> rcases fetch with e | (e2 | ⟨st, tx⟩ | r) <;>
    simp only [worker_send] <;> (try split_ifs) <;> simp_all

/-- C2: for every `reps ≥ 1`, both controllers return exactly `reps`
results whose index fields are the contiguous range `1..reps` in
ascending order — for the parallel controller, for every completion
order that permutes the task set. -/
theorem dispatch_returns_complete_sorted_indices (reps : Int) (_hreps : 1 ≤ reps)
    (uuid : Nat → String) (envOf : Nat → BrowserEnv)
    (order : List Nat) (horder : order.Perm (attemptIndices reps)) :
    (run_sequential reps uuid envOf).length = reps.toNat ∧
    (run_sequential reps uuid envOf).map AttemptResult.index = List.range' 1 reps.toNat ∧
    (run_parallel reps uuid envOf order).length = reps.toNat ∧
    (run_parallel reps uuid envOf order).map AttemptResult.index = List.range' 1 reps.toNat := by
  have hs := run_sequential_indices reps uuid envOf
  have hp := run_parallel_indices reps uuid envOf order horder
  refine ⟨?_, hs, ?_, hp⟩
  · have := congrArg List.length hs
    simpa [attemptIndices] using this
  · have := congrArg List.length hp
    simpa [attemptIndices] using this

/-- Sample browser behaviour: fetch succeeds with status 200 and a body
containing the success marker in upper case. -/
def sampleEnv200 : BrowserEnv :=
  ⟨none, .ok, none, .ok (.dict (some 200) (some "xx THANK YOU xx"))⟩

/-- Witness for C2 at `reps = 3` with completion order `[2, 3, 1]`. -/
theorem dispatch_returns_complete_sorted_indices_witness :
    (1 : Int) ≤ 3 ∧
    (run_sequential 3 (fun _ => "u") (fun _ => sampleEnv200)).map AttemptResult.index =
      List.range' 1 (3 : Int).toNat ∧
    (run_parallel 3 (fun _ => "u") (fun _ => sampleEnv200) [2, 3, 1]).map AttemptResult.index =
      List.range' 1 (3 : Int).toNat := by
  obtain ⟨a, b, c, d⟩ :=
    dispatch_returns_complete_sorted_indices 3 (by decide) (fun _ => "u")
      (fun _ => sampleEnv200) [2, 3, 1] (by decide)
  exact ⟨by decide, b, d⟩

/-- C3: `build_payload_with_trace` returns the base-template fields first
in template order, then `trace_id` with the given trace, and a `_nonce`
field (exactly one, with the given value) appended last exactly when the
nonce is present and non-empty; with the nonce absent the output contains
no `_nonce` field. -/
theorem build_payload_fields_spec (trace : String) (nonce : Option String) :
    build_payload_with_trace trace nonce =
      BASE_PAYLOAD ++ [("trace_id", trace)] ++
        (if truthy nonce then [("_nonce", nonce.getD "")] else []) ∧
    (truthy nonce = true ↔ ∃ n, nonce = some n ∧ n ≠ "") ∧
    ((build_payload_with_trace trace nonce).filter (fun kv => kv.1 = "_nonce")) =
      (if truthy nonce then [("_nonce", nonce.getD "")] else []) := by
  rcases nonce with _ | n
  · simp [build_payload_with_trace, dictSet, BASE_PAYLOAD, truthy]
  · by_cases hn : n = "" <;>
      simp [build_payload_with_trace, dictSet, BASE_PAYLOAD, truthy, hn]

/-- C4: when navigation fails under both readiness conditions,
`worker_send` returns `ok = false` with the navigation message, no HTTP
status, `response_snippet` stays absent, and the result does not depend
on the fetch outcome (no submission is attempted). -/
theorem worker_send_nav_failure (i : Nat) (u : String) (env : BrowserEnv) (e : String)
    (h1 : env.importError = none) (h2 : env.nav = .timeoutThenFail e) :
    (worker_send i u env).ok = false ∧
    (worker_send i u env).message = some ("Failed to load page: " ++ e) ∧
    (worker_send i u env).response_snippet = none ∧
    (worker_send i u env).http_status = none ∧
    (∀ f1 f2 : Except String FetchResult,
      worker_send i u { env with fetch := f1 } = worker_send i u { env with fetch := f2 }) := by
  rcases env with ⟨imp, nav, nonce, fetch⟩
  simp only at h1 h2
  subst h1 h2
  refine ⟨rfl, rfl, rfl, rfl, fun f1 f2 => rfl⟩

/-- Sample browser behaviour: the first navigation times out and the
basic-load retry also fails. -/
def sampleEnvNavFail : BrowserEnv :=
  ⟨none, .timeoutThenFail "Timeout 30000ms exceeded.", none, .ok (.dict (some 200) (some "x"))⟩

/-- Witness for C4 on a doubly failed navigation. -/
theorem worker_send_nav_failure_witness :
    (worker_send 1 "u" sampleEnvNavFail).ok = false ∧
    (worker_send 1 "u" sampleEnvNavFail).message =
      some ("Failed to load page: " ++ "Timeout 30000ms exceeded.") ∧
    (worker_send 1 "u" sampleEnvNavFail).response_snippet = none ∧
    worker_send 1 "u" { sampleEnvNavFail with fetch := .error "x" } =
      worker_send 1 "u" { sampleEnvNavFail with fetch := .ok (.errDict "y") } := by
  obtain ⟨a, b, c, d, e⟩ :=
    worker_send_nav_failure 1 "u" sampleEnvNavFail "Timeout 30000ms exceeded." rfl rfl
  exact ⟨a, b, c, e _ _⟩

/-- C5: an exception raised by an external call that no inner handler
catches (a non-timeout navigation error, or `page.evaluate` raising) is
caught at the top of `worker_send` and converted into `ok = false` with
the generic unhandled-exception message; `worker_send` still returns a
result (it is a total function of its environment). -/
theorem worker_send_unhandled_exception (i : Nat) (u : String) (env : BrowserEnv) (e : String)
    (h1 : env.importError = none)
    (h2 : env.nav = .raise e ∨
      ((env.nav = .ok ∨ env.nav = .timeoutThenOk) ∧ env.fetch = .error e)) :
    (worker_send i u env).ok = false ∧
    (worker_send i u env).message = some ("Unhandled exception: " ++ e) := by
  rcases env with ⟨imp, nav, nonce, fetch⟩
  simp only at h1 h2
  subst h1
  rcases h2 with hnav | ⟨hnav, hf⟩
  · subst hnav; exact ⟨rfl, rfl⟩
  · rcases hnav with hnav | hnav <;> (subst hnav; subst hf; exact ⟨rfl, rfl⟩)

/-- Sample browser behaviour: `page.evaluate` raises. -/
def sampleEnvRaise : BrowserEnv := ⟨none, .ok, none, .error "page crashed"⟩

/-- Witness for C5 on a raising `page.evaluate`. -/
theorem worker_send_unhandled_exception_witness :
    (worker_send 2 "u" sampleEnvRaise).ok = false ∧
    (worker_send 2 "u" sampleEnvRaise).message =
      some ("Unhandled exception: " ++ "page crashed") := by
  exact worker_send_unhandled_exception 2 "u" sampleEnvRaise "page crashed" rfl
    (Or.inr ⟨Or.inl rfl, rfl⟩)

/-- C6: an in-page fetch completing with a status other than exactly 200
yields `ok = false` and the message `"HTTP {status}"`; in particular for
status 403 the message contains `"403"`. -/
theorem worker_send_non200_http_message (i : Nat) (u : String) (env : BrowserEnv)
    (status : Option Int) (text : Option String)
    (h1 : env.importError = none) (h2 : env.nav = .ok ∨ env.nav = .timeoutThenOk)
    (h3 : env.fetch = .ok (.dict status text)) (h4 : status ≠ some 200) :
    (worker_send i u env).ok = false ∧
    (worker_send i u env).message = some ("HTTP " ++ pyShowStatus status) ∧
    (status = some 403 →
      ∃ m, (worker_send i u env).message = some m ∧ strContains m "403" = true) := by
  rcases env with ⟨imp, nav, nonce, fetch⟩
  simp only at h1 h2 h3
  subst h1 h3
  rcases h2 with hnav | hnav <;> subst hnav <;>
    refine ⟨?_, ?_, ?_⟩ <;>
      simp only [worker_send, if_neg h4] <;>
      try rfl
  all_goals (rintro rfl; exact ⟨"HTTP 403", rfl, by decide⟩)

/-- Sample browser behaviour: fetch completes with status 403. -/
def sampleEnv403 : BrowserEnv :=
  ⟨none, .ok, none, .ok (.dict (some 403) (some "Forbidden"))⟩

/-- Witness for C6 at status 403. -/
theorem worker_send_non200_http_message_witness :
    (worker_send 3 "u" sampleEnv403).ok = false ∧
    (worker_send 3 "u" sampleEnv403).message = some ("HTTP " ++ pyShowStatus (some 403)) ∧
    (∃ m, (worker_send 3 "u" sampleEnv403).message = some m ∧ strContains m "403" = true) := by
  obtain ⟨a, b, c⟩ := worker_send_non200_http_message 3 "u" sampleEnv403 (some 403)
    (some "Forbidden") rfl (Or.inl rfl) rfl (by decide)
  exact ⟨a, b, c rfl⟩

/-- C7: a fetch completing with status 200 always yields `ok = true`;
the message is the marker-found message exactly when the body excerpt
contains the success marker case-insensitively, and the marker-absent
message otherwise — marker presence affects only the message. -/
theorem worker_send_http200_marker_message (i : Nat) (u : String) (env : BrowserEnv)
    (text : Option String)
    (h1 : env.importError = none) (h2 : env.nav = .ok ∨ env.nav = .timeoutThenOk)
    (h3 : env.fetch = .ok (.dict (some 200) text)) :
    (worker_send i u env).ok = true ∧
    ((worker_send i u env).message = some "HTTP 200 and success marker found." ↔
      strContains (pyLower (text.getD "")) (pyLower SUCCESS_MARKER) = true) ∧
    ((worker_send i u env).message = some "HTTP 200, no success marker found." ↔
      strContains (pyLower (text.getD "")) (pyLower SUCCESS_MARKER) = false) := by
  rcases env with ⟨imp, nav, nonce, fetch⟩
  simp only at h1 h2 h3
  subst h1 h3
  rcases h2 with hnav | hnav <;> subst hnav <;>
    cases hm : strContains (pyLower (text.getD "")) (pyLower SUCCESS_MARKER) <;>
      simp [worker_send, hm]

/-- Witness for C7: status 200 with the marker in upper case, and status
200 without the marker. -/
theorem worker_send_http200_marker_message_witness :
    (worker_send 4 "u" sampleEnv200).ok = true ∧
    (worker_send 4 "u" sampleEnv200).message = some "HTTP 200 and success marker found." ∧
    (worker_send 5 "u" ⟨none, .ok, none, .ok (.dict (some 200) (some "nothing here"))⟩).ok
      = true ∧
    (worker_send 5 "u" ⟨none, .ok, none, .ok (.dict (some 200) (some "nothing here"))⟩).message
      = some "HTTP 200, no success marker found." := by
  obtain ⟨a, b, -⟩ := worker_send_http200_marker_message 4 "u" sampleEnv200
    (some "xx THANK YOU xx") rfl (Or.inl rfl) rfl
  obtain ⟨a2, -, c2⟩ := worker_send_http200_marker_message 5 "u"
    ⟨none, .ok, none, .ok (.dict (some 200) (some "nothing here"))⟩
    (some "nothing here") rfl (Or.inl rfl) rfl
  exact ⟨a, b.mpr (by decide), a2, c2.mpr (by decide)⟩

/-- C8: the builder never mutates the base-template object: after a call,
the dict behind `baseRef` is unchanged, so any later call starts from the
same base field set and returns the same payload it would have returned
on the fresh heap; when `baseRef` holds `BASE_PAYLOAD`, the heap-level
builder agrees with the pure `build_payload_with_trace`. -/
theorem build_payload_base_template_unchanged (h : Heap) (baseRef : Nat) (trace : String)
    (nonce : Option String) (hlt : baseRef < h.objs.length) :
    ((build_payload_with_trace_heap h baseRef trace nonce).1).read baseRef = h.read baseRef ∧
    (∀ trace2 nonce2,
      (build_payload_with_trace_heap
          (build_payload_with_trace_heap h baseRef trace nonce).1 baseRef trace2 nonce2).2 =
        (build_payload_with_trace_heap h baseRef trace2 nonce2).2) ∧
    (h.read baseRef = BASE_PAYLOAD →
      (build_payload_with_trace_heap h baseRef trace nonce).2 =
        build_payload_with_trace trace nonce) := by
  refine ⟨bp_heap_frame h baseRef trace nonce hlt, fun trace2 nonce2 => ?_, fun hbase => ?_⟩
  · rw [bp_heap_payload, bp_heap_payload, bp_heap_frame h baseRef trace nonce hlt]
  · rw [bp_heap_payload, hbase]
    rfl

/-- Witness for C8 on a one-object heap holding `BASE_PAYLOAD`. -/
theorem build_payload_base_template_unchanged_witness :
    ((build_payload_with_trace_heap ⟨[BASE_PAYLOAD]⟩ 0 "t" (some "abc")).1).read 0 =
      Heap.read ⟨[BASE_PAYLOAD]⟩ 0 ∧
    (build_payload_with_trace_heap
        (build_payload_with_trace_heap ⟨[BASE_PAYLOAD]⟩ 0 "t" (some "abc")).1 0 "t2" none).2 =
      (build_payload_with_trace_heap ⟨[BASE_PAYLOAD]⟩ 0 "t2" none).2 ∧
    (build_payload_with_trace_heap ⟨[BASE_PAYLOAD]⟩ 0 "t" (some "abc")).2 =
      build_payload_with_trace "t" (some "abc") := by
  obtain ⟨a, b, c⟩ :=
    build_payload_base_template_unchanged ⟨[BASE_PAYLOAD]⟩ 0 "t" (some "abc") (by decide)
  exact ⟨a, b "t2" none, c rfl⟩

/-- C9: the field names of the pair list returned by
`build_payload_with_trace` are pairwise distinct, for every trace and
nonce (the builder works on a dict, so keys cannot repeat). -/
theorem build_payload_keys_nodup (trace : String) (nonce : Option String) :
    ((build_payload_with_trace trace nonce).map Prod.fst).Nodup := by
  rcases nonce with _ | n
  · simp [build_payload_with_trace, dictSet, BASE_PAYLOAD, truthy]
  · by_cases hn : n = "" <;>
      simp [build_payload_with_trace, dictSet, BASE_PAYLOAD, truthy, hn]

/-- C10: a repetition count below 1 is not rejected: both controllers
dispatch zero attempts and return the empty list, and the final summary
is `(total, succeeded, failed) = (0, 0, 0)`. -/
theorem controllers_accept_reps_below_one (reps : Int) (h : reps < 1)
    (uuid : Nat → String) (envOf : Nat → BrowserEnv) (order : List Nat)
    (horder : order.Perm (attemptIndices reps)) :
    run_sequential reps uuid envOf = [] ∧
    run_parallel reps uuid envOf order = [] ∧
    summarize (run_sequential reps uuid envOf) = (0, 0, 0) := by
  have hn : reps.toNat = 0 := Int.toNat_of_nonpos (by omega)
  have hidx : attemptIndices reps = [] := by simp [attemptIndices, hn]
  have hord : order = [] := by
    have hperm := horder
    rw [hidx] at hperm
    exact hperm.eq_nil
  subst hord
  refine ⟨?_, ?_, ?_⟩
  · simp [run_sequential, hidx]
  · simp [run_parallel]
  · simp [run_sequential, hidx, summarize]

/-- Witness for C10 at `reps = 0`. -/
theorem controllers_accept_reps_below_one_witness :
    run_sequential 0 (fun _ => "u") (fun _ => sampleEnv200) = [] ∧
    run_parallel 0 (fun _ => "u") (fun _ => sampleEnv200) [] = [] ∧
    summarize (run_sequential 0 (fun _ => "u") (fun _ => sampleEnv200)) = (0, 0, 0) :=
  controllers_accept_reps_below_one 0 (by decide) (fun _ => "u") (fun _ => sampleEnv200) []
    (by decide)
